import Mathlib

/-!
Verification of `agent_motion_prediction.py` (Lyft motion-prediction
training/inference driver).  The Python source is shallowly embedded:
pure shape computations become Lean functions over `Nat`, tensor
arithmetic is modelled over `ℚ` with `Fin`-indexed functions, and the
training/evaluation loops become structural recursions producing traces.
-/

namespace AgentMotion

/-! ## Configuration (`agent_motion_config.yaml` fields used by the script) -/

/-- The `model_params` section of the config consumed by `build_model`. -/
structure ModelParams where
  history_num_frames : Nat
  future_num_frames : Nat

/-! ## Model construction (`build_model`, lines 39-58) -/

/-- Hyperparameters of a `torch.nn.Conv2d` layer (the fields the script
reads or writes). -/
structure Conv2d where
  in_channels : Nat
  out_channels : Nat
  kernel_size : Nat × Nat
  stride : Nat × Nat
  padding : Nat × Nat
  bias : Bool
deriving DecidableEq

/-- Hyperparameters of a `torch.nn.Linear` layer. -/
structure Linear where
  in_features : Nat
  out_features : Nat
deriving DecidableEq

/-- The layers of `torchvision.models.resnet.resnet50` visible to the
script: the first convolution `conv1`, the final classifier `fc`, and the
remaining backbone layers (`bn1`, `maxpool`, the four bottleneck stages,
`avgpool`), plus whether the constructor was asked for pretrained
ImageNet weights. -/
structure ResNet where
  pretrained : Bool
  conv1 : Conv2d
  bn1_num_features : Nat
  maxpool_kernel_stride_padding : Nat × Nat × Nat
  layer1_blocks : Nat
  layer2_blocks : Nat
  layer3_blocks : Nat
  layer4_blocks : Nat
  avgpool_output_size : Nat × Nat
  fc : Linear
deriving DecidableEq

/-- The function `torchvision.models.resnet.resnet50(pretrained=...)`: a ResNet-50
with its standard stem (7x7/stride-2/pad-3 conv, 3 input channels, 64
output channels, no bias), bottleneck stages of 3/4/6/3 blocks, and a
2048 -> 1000 classifier head. -/
def resnet50 (pretrained : Bool) : ResNet where
  pretrained := pretrained
  conv1 := { in_channels := 3, out_channels := 64, kernel_size := (7, 7),
             stride := (2, 2), padding := (3, 3), bias := false }
  bn1_num_features := 64
  maxpool_kernel_stride_padding := (3, 2, 1)
  layer1_blocks := 3
  layer2_blocks := 4
  layer3_blocks := 6
  layer4_blocks := 3
  avgpool_output_size := (1, 1)
  fc := { in_features := 2048, out_features := 1000 }

/-- Function `build_model` (lines 39-58): instantiate `resnet50(pretrained=False)`,
replace `conv1` by a convolution with `3 + (history_num_frames + 1) * 2`
input channels (keeping out-channels, kernel size, stride and padding,
with `bias=False`), and replace `fc` by `Linear(2048, 2 * future_num_frames)`. -/
def build_model (cfg_ : ModelParams) : ResNet :=
  let model_ := resnet50 false
  let num_history_channels := (cfg_.history_num_frames + 1) * 2
  let num_in_channels := 3 + num_history_channels
  let model_ := { model_ with
    conv1 := { in_channels := num_in_channels,
               out_channels := model_.conv1.out_channels,
               kernel_size := model_.conv1.kernel_size,
               stride := model_.conv1.stride,
               padding := model_.conv1.padding,
               bias := false } }
  let num_targets := 2 * cfg_.future_num_frames
  { model_ with fc := { in_features := 2048, out_features := num_targets } }

/-! ## CLI arguments and mode dispatch (`main`, lines 246-259) -/

/-- The three parsed CLI flags: `-n` (nodes), `-g` (gpus), `-nr` (node rank). -/
structure Args where
  nodes : Nat
  gpus : Nat
  nr : Nat

/-- Line 255: `args.world_size = args.gpus * args.nodes`. -/
def world_size (args : Args) : Nat := args.gpus * args.nodes

/-- The `nprocs` argument passed to both `mp.spawn` calls (lines 257 and
259): `args.gpus`. -/
def spawn_nprocs (args : Args) : Nat := args.gpus

/-- Which routine `main` spawns. -/
inductive Mode where
  | trainMode
  | testMode
deriving DecidableEq

/-- The dispatch in `main` (lines 256-259): spawn `train` when
`not cfg['train_params']['load_the_state']`, else spawn `test`. -/
def mainSpawn (load_the_state : Bool) : Mode :=
  if !load_the_state then Mode.trainMode else Mode.testMode

/-! ## Optimizer construction (`train`, line 92) -/

/-- Kinds of `torch.optim` optimizers relevant to the spec. -/
inductive OptimKind where
  | SGD
  | Adam
deriving DecidableEq

/-- An optimizer together with its learning rate. -/
structure OptimizerCfg where
  kind : OptimKind
  lr : ℚ
deriving DecidableEq

/-- Line 92: `optimizer = optim.Adam(model.parameters(), lr=1e-3)`. -/
def trainOptimizer : OptimizerCfg := { kind := OptimKind.Adam, lr := 1 / 1000 }

/-! ## Forward pass and masked loss (`forward`, lines 61-71)

Tensors are modelled over `ℚ`.  A batch's target positions have shape
`(B, T, 2)` (with `T = future_num_frames`), modelled as
`Fin B → Fin T → Fin 2 → ℚ`; the raw model output has shape `(B, 2*T)`,
modelled as `Fin B → Fin (2*T) → ℚ`; the availabilities have shape
`(B, T)`. -/

/-- One batch as produced by the data loader: the rasterized image (kept
abstract), the target availabilities and the target positions. -/
structure BatchData (ι : Type) (B T : Nat) where
  image : ι
  target_availabilities : Fin B → Fin T → ℚ
  target_positions : Fin B → Fin T → Fin 2 → ℚ

/-- Row-major flattened index of element `(s, i)` of a `(T, 2)`-shaped
slice inside the `2*T`-long model output row: `s * 2 + i`. -/
def flatIdx (T : Nat) (p : Fin T × Fin 2) : Fin (2 * T) :=
  ⟨p.1.val * 2 + p.2.val, by obtain ⟨⟨s, hs⟩, ⟨i, hi⟩⟩ := p; simp only; omega⟩

/-- Line 66, `model_(inputs).reshape(targets.shape)`: reinterpret each
`2*T`-long output row as a `(T, 2)` matrix, row-major. -/
def reshapeOut {B T : Nat} (flat : Fin B → Fin (2 * T) → ℚ) :
    Fin B → Fin T → Fin 2 → ℚ :=
  fun b s i => flat b (flatIdx T (s, i))

/-- The criterion `nn.MSELoss(reduction="none")` (lines 93 and 170): elementwise
squared error, no reduction. -/
def mseLossNone {B T : Nat} (outputs targets : Fin B → Fin T → Fin 2 → ℚ) :
    Fin B → Fin T → Fin 2 → ℚ :=
  fun b s i => (outputs b s i - targets b s i) ^ 2

/-- Line 69, `loss_ * target_availabilities`, after
`target_availabilities.unsqueeze(-1)` (line 63): the `(B, T, 1)` mask is
broadcast over the trailing dimension of the `(B, T, 2)` loss tensor. -/
def mulAvailabilities {B T : Nat} (loss_ : Fin B → Fin T → Fin 2 → ℚ)
    (target_availabilities : Fin B → Fin T → ℚ) : Fin B → Fin T → Fin 2 → ℚ :=
  fun b s i => loss_ b s i * target_availabilities b s

/-- Line 70, `loss_.mean()`: sum of all `B * T * 2` elements divided by
the element count. -/
def tensorMean {B T : Nat} (x : Fin B → Fin T → Fin 2 → ℚ) : ℚ :=
  (∑ b : Fin B, ∑ s : Fin T, ∑ i : Fin 2, x b s i) / (B * T * 2)

/-- Function `forward` (lines 61-71): run the model on the batch's image, reshape
the output to the targets' shape, take the unreduced MSE against the
targets, multiply by the unsqueezed availabilities, and return the mean
together with the reshaped outputs. -/
def forward {ι : Type} {B T : Nat} (data_ : BatchData ι B T)
    (model_ : ι → Fin B → Fin (2 * T) → ℚ) :
    ℚ × (Fin B → Fin T → Fin 2 → ℚ) :=
  let inputs := data_.image
  let target_availabilities := data_.target_availabilities
  let targets := data_.target_positions
  let outputs := reshapeOut (model_ inputs)
  let loss_ := mseLossNone outputs targets
  let loss_ := mulAvailabilities loss_ target_availabilities
  (tensorMean loss_, outputs)

/-! ## Training loop (`train`, lines 122-149)

The forward/backward/optimizer-step body (lines 135-142) is abstracted
as a state transformer `step` over the model and optimizer state; the
data loader is the list of batches its iterator yields in order. -/

/-- Model parameters and optimizer state threaded through the loop. -/
structure TrainState (M O : Type) where
  model : M
  optim : O
deriving DecidableEq

/-- A value of the checkpoint dictionary built on line 148: either a
model state dict or an optimizer state dict. -/
inductive StateVal (M O : Type) where
  | modelSd : M → StateVal M O
  | optimSd : O → StateVal M O
deriving DecidableEq

/-- Line 148:
`state = {'model': model.state_dict(), 'optimizer': optimizer.state_dict()}`. -/
def checkpointState {M O : Type} (s : TrainState M O) :
    List (String × StateVal M O) :=
  [("model", StateVal.modelSd s.model), ("optimizer", StateVal.optimSd s.optim)]

/-- The save condition on line 147:
`index % checkpoint == 0 and index != 0 and gpu == 0`. -/
def savesAt (checkpoint gpu index : Nat) : Prop :=
  index % checkpoint = 0 ∧ index ≠ 0 ∧ gpu = 0

instance (checkpoint gpu index : Nat) : Decidable (savesAt checkpoint gpu index) :=
  inferInstanceAs (Decidable (index % checkpoint = 0 ∧ index ≠ 0 ∧ gpu = 0))

/-- Lines 130-134: `data = next(tr_it)`, with `StopIteration` caught by
building a fresh iterator over the loader and fetching from it; `none`
models the uncaught `StopIteration` raised when the fresh iterator is
also empty. -/
def fetchBatch {β : Type} (loader it : List β) : Option (β × List β) :=
  match it with
  | data :: rest => some (data, rest)
  | [] =>
    match loader with
    | data :: rest => some (data, rest)
    | [] => none

/-- One iteration of the inner loop: the batch index, the batch consumed,
the state after `optimizer.step()`, and the checkpoint dictionary saved
this iteration, if any. -/
structure IterRecord (M O β : Type) where
  index : Nat
  data : β
  state : TrainState M O
  saved : Option (List (String × StateVal M O))

/-- Lines 129-149: for each batch index, fetch a batch (restarting the
iterator on exhaustion), run the training step, and save a checkpoint
when `savesAt` holds.  Returns the iteration trace, the final state and
the remaining iterator, or `none` when an uncaught exception escapes. -/
def trainLoopGo {M O β : Type} (checkpoint gpu : Nat)
    (step : TrainState M O → β → TrainState M O) (loader : List β) :
    List Nat → List β → TrainState M O →
    Option (List (IterRecord M O β) × TrainState M O × List β)
  | [], it, s => some ([], s, it)
  | index :: rest, it, s =>
    match fetchBatch loader it with
    | none => none
    | some (data, it1) =>
      let s1 := step s data
      let saved := if savesAt checkpoint gpu index then some (checkpointState s1)
                   else none
      match trainLoopGo checkpoint gpu step loader rest it1 s1 with
      | none => none
      | some (trace, sf, itf) => some (⟨index, data, s1, saved⟩ :: trace, sf, itf)

/-- One epoch of the inner training loop (lines 126-149): a fresh
iterator over the loader (`tr_it = iter(train_dataloader)`) and
`len(train_dataloader)` loop steps
(`for index in tqdm(range(len(train_dataloader)))`). -/
def train_epoch {M O β : Type} (checkpoint gpu : Nat)
    (step : TrainState M O → β → TrainState M O) (loader : List β)
    (s : TrainState M O) :
    Option (List (IterRecord M O β) × TrainState M O × List β) :=
  trainLoopGo checkpoint gpu step loader (List.range loader.length) loader s

/-- The checkpoints saved during a run, as (batch index, dictionary)
pairs, in save order. -/
def epochSaves {M O β : Type}
    (r : Option (List (IterRecord M O β) × TrainState M O × List β)) :
    List (Nat × List (String × StateVal M O)) :=
  match r with
  | none => []
  | some (trace, _, _) => trace.filterMap fun itr => itr.saved.map fun d => (itr.index, d)

/-- The trace of a run in which the iterator never runs out: consume one
batch per index, thread the state, record saves. -/
def runSteps {M O β : Type} (checkpoint gpu : Nat)
    (step : TrainState M O → β → TrainState M O) :
    List Nat → List β → TrainState M O → List (IterRecord M O β)
  | [], _, _ => []
  | _ :: _, [], _ => []
  | index :: rest, data :: ds, s =>
    let s1 := step s data
    ⟨index, data, s1,
      if savesAt checkpoint gpu index then some (checkpointState s1) else none⟩
      :: runSteps checkpoint gpu step rest ds s1

/-- A concrete training step on `Nat` model/optimizer states, used to
exercise the loop theorems on concrete inputs. -/
def stepEx : TrainState Nat Nat → Nat → TrainState Nat Nat :=
  fun s data => { model := s.model + data, optim := s.optim + 1 }

/-! ## Evaluation loop (`test`, lines 220-243) -/

/-- One batch yielded by the masked test data loader: per-sample images,
timestamps (`data["timestamp"]`) and track ids (`data["track_id"]`),
rows aligned by sample. -/
structure TestBatch (ι τ κ : Type) where
  image : List ι
  timestamp : List τ
  track_id : List κ

/-- The eval loop body (lines 230-234): for every batch, in iteration
order, append the per-sample model outputs to
`future_coords_offsets_pd`, the timestamps to `timestamps` and the track
ids to `agent_ids`. -/
def evalLoop {ι τ κ π : Type} (model : ι → π) :
    List (TestBatch ι τ κ) → List (List π) × List (List τ) × List (List κ)
  | [] => ([], [], [])
  | data :: rest =>
    let ouputs := data.image.map model
    let r := evalLoop model rest
    (ouputs :: r.1, data.timestamp :: r.2.1, data.track_id :: r.2.2)

/-- Modelled from the spec: `l5kit.evaluation.write_pred_csv` is external
library code, not part of this repository.  Per the spec it writes "a
final CSV file of predicted coordinates per agent/timestamp", i.e. one
CSV row per (timestamp, track id, coordinates) triple of the
concatenated collections. -/
def write_pred_csv {τ κ π : Type} (timestamps : List τ) (track_ids : List κ)
    (coords : List π) : List (τ × κ × π) :=
  timestamps.zip (track_ids.zip coords)

/-- Lines 229-243: run the eval loop over the masked test set,
concatenate (`np.concatenate`) the collected timestamps, track ids and
predicted coordinates, and write the prediction CSV. -/
def testRun {ι τ κ π : Type} (model : ι → π) (batches : List (TestBatch ι τ κ)) :
    List (τ × κ × π) :=
  write_pred_csv (evalLoop model batches).2.1.flatten
    (evalLoop model batches).2.2.flatten
    (evalLoop model batches).1.flatten

end AgentMotion

namespace AgentMotion

/-- If there are at least as many batches left in the iterator as loop
indices, the loop never restarts the iterator: it consumes one batch per
index, folds the step function over the consumed prefix, and leaves the
unconsumed suffix. -/
theorem trainLoopGo_eq_runSteps {M O β : Type} (checkpoint gpu : Nat)
    (step : TrainState M O → β → TrainState M O) (loader : List β) :
    ∀ (idxs : List Nat) (it : List β) (s : TrainState M O),
      idxs.length ≤ it.length →
      trainLoopGo checkpoint gpu step loader idxs it s
        = some (runSteps checkpoint gpu step idxs it s,
                (it.take idxs.length).foldl step s, it.drop idxs.length) := by
  intro idxs
  induction idxs with
  | nil => intro it s _; simp [trainLoopGo, runSteps]
  | cons index rest ih =>
    intro it s hlen
    cases it with
    | nil => simp at hlen
    | cons data it1 =>
      have hlen1 : rest.length ≤ it1.length := by simpa using hlen
      have hrec := ih it1 (step s data) hlen1
      simp only [trainLoopGo, fetchBatch, hrec, runSteps, List.length_cons,
        List.take_succ_cons, List.drop_succ_cons, List.foldl_cons]

/-- As long as the loader is nonempty, the inner loop never fails: every
`StopIteration` is caught and satisfied by the fresh iterator. -/
theorem trainLoopGo_isSome {M O β : Type} (checkpoint gpu : Nat)
    (step : TrainState M O → β → TrainState M O) (loader : List β)
    (h : loader ≠ []) :
    ∀ (idxs : List Nat) (it : List β) (s : TrainState M O),
      (trainLoopGo checkpoint gpu step loader idxs it s).isSome = true := by
  intro idxs
  induction idxs with
  | nil => intro it s; rfl
  | cons index rest ih =>
    intro it s
    have hf : ∃ p, fetchBatch loader it = some p := by
      cases it with
      | cons data rest' => exact ⟨(data, rest'), rfl⟩
      | nil =>
        cases loader with
        | nil => exact absurd rfl h
        | cons data rest' => exact ⟨(data, rest'), rfl⟩
    obtain ⟨⟨data, it1⟩, hp⟩ := hf
    have hrec := ih it1 (step s data)
    rcases hres : trainLoopGo checkpoint gpu step loader rest it1 (step s data)
      with _ | ⟨trace, sf, itf⟩
    · rw [hres] at hrec; simp at hrec
    · simp [trainLoopGo, hp, hres]

/-- The batches consumed along a no-restart run are exactly the prefix of
the iterator of the loop's length. -/
theorem runSteps_map_data {M O β : Type} (checkpoint gpu : Nat)
    (step : TrainState M O → β → TrainState M O) :
    ∀ (idxs : List Nat) (ds : List β) (s : TrainState M O),
      (runSteps checkpoint gpu step idxs ds s).map (fun itr => itr.data)
        = ds.take idxs.length := by
  intro idxs
  induction idxs with
  | nil => intro ds s; simp [runSteps]
  | cons index rest ih =>
    intro ds s
    cases ds with
    | nil => simp [runSteps]
    | cons data ds1 => simp [runSteps, ih]

/-- Closed form for the checkpoints recorded along a no-restart run over
consecutive indices `a, a+1, ..., a+n-1`. -/
theorem runSteps_saves {M O β : Type} (checkpoint gpu : Nat)
    (step : TrainState M O → β → TrainState M O) :
    ∀ (n a : Nat) (ds : List β) (s : TrainState M O), ds.length = n →
      ((runSteps checkpoint gpu step (List.range' a n) ds s).filterMap
          fun itr => itr.saved.map fun d => (itr.index, d))
        = (List.range' a n).filterMap fun i =>
            if savesAt checkpoint gpu i
            then some (i, checkpointState ((ds.take (i + 1 - a)).foldl step s))
            else none := by
  intro n
  induction n with
  | zero => intro a ds s _; simp [List.range', runSteps]
  | succ n ih =>
    intro a ds s hds
    cases ds with
    | nil => simp at hds
    | cons data ds1 =>
      have hds1 : ds1.length = n := by simpa using hds
      rw [List.range'_succ]
      have htail :
          ((List.range' (a + 1) n).filterMap fun i =>
              if savesAt checkpoint gpu i
              then some (i, checkpointState
                ((ds1.take (i + 1 - (a + 1))).foldl step (step s data)))
              else none)
            = (List.range' (a + 1) n).filterMap fun i =>
                if savesAt checkpoint gpu i
                then some (i, checkpointState
                  (((data :: ds1).take (i + 1 - a)).foldl step s))
                else none := by
        refine List.filterMap_congr fun i hi => ?_
        have hai : a + 1 ≤ i := (List.mem_range'_1.mp hi).1
        have h1 : i + 1 - a = (i + 1 - (a + 1)) + 1 := by omega
        rw [h1, List.take_succ_cons, List.foldl_cons]
      rw [runSteps]
      simp only [List.filterMap_cons]
      have hhead : a + 1 - a = 1 := by omega
      by_cases hsv : savesAt checkpoint gpu a
      · rw [if_pos hsv, if_pos hsv]
        simp only [Option.map_some', hhead, List.take_succ_cons, List.take_zero,
          List.foldl_cons, List.foldl_nil]
        rw [ih (a + 1) ds1 (step s data) hds1, htail]
      · rw [if_neg hsv, if_neg hsv]
        simp only [Option.map_none']
        rw [ih (a + 1) ds1 (step s data) hds1, htail]

/-- C3: during an epoch, a checkpoint is saved at batch index `idx` if
and only if `idx % checkpoint_every_n_steps == 0`, `idx != 0` and the
process rank is `0`; the saved dictionary is exactly the model state dict
under key `model` and the optimizer state dict under key `optimizer`,
taken at the post-update state of that step; no checkpoint is written at
any other step or by any other rank. -/
theorem checkpoints_saved_iff {M O β : Type} (checkpoint gpu : Nat)
    (step : TrainState M O → β → TrainState M O) (loader : List β)
    (s : TrainState M O) (hchk : 0 < checkpoint) :
    ∀ (idx : Nat) (d : List (String × StateVal M O)),
      (idx, d) ∈ epochSaves (train_epoch checkpoint gpu step loader s) ↔
        (idx < loader.length ∧ idx % checkpoint = 0 ∧ idx ≠ 0 ∧ gpu = 0 ∧
          d = checkpointState ((loader.take (idx + 1)).foldl step s)) := by
  intro idx d
  unfold train_epoch
  rw [List.range_eq_range',
    trainLoopGo_eq_runSteps checkpoint gpu step loader _ _ _ (by simp)]
  show (idx, d) ∈ (runSteps checkpoint gpu step (List.range' 0 loader.length)
      loader s).filterMap _ ↔ _
  rw [runSteps_saves checkpoint gpu step loader.length 0 loader s rfl]
  rw [List.mem_filterMap]
  constructor
  · rintro ⟨i, hi, hg⟩
    have hin : i < loader.length := by
      have := List.mem_range'_1.mp hi
      omega
    by_cases hsv : savesAt checkpoint gpu i
    · rw [if_pos hsv] at hg
      simp only [Option.some.injEq, Prod.mk.injEq] at hg
      obtain ⟨hidx, hd⟩ := hg
      subst hidx
      obtain ⟨h1, h2, h3⟩ := hsv
      refine ⟨hin, h1, h2, h3, ?_⟩
      rw [← hd]
      simp
    · rw [if_neg hsv] at hg
      simp at hg
  · rintro ⟨hlt, hm, hne, hg0, hd⟩
    refine ⟨idx, List.mem_range'_1.mpr ⟨Nat.zero_le _, by omega⟩, ?_⟩
    rw [if_pos (show savesAt checkpoint gpu idx from ⟨hm, hne, hg0⟩)]
    rw [hd]
    simp

/-- C3 witness: with `checkpoint_every_n_steps = 2`, rank `0`, a
four-batch loader and a concrete step function, a checkpoint is saved at
batch index 2 and its dictionary is the model/optimizer state dicts after
the third update. -/
theorem checkpoints_saved_iff_witness :
    0 < 2 ∧
    (2, checkpointState (TrainState.mk 60 3))
      ∈ epochSaves (train_epoch 2 0 stepEx [10, 20, 30, 40] ⟨0, 0⟩) :=
  ⟨by decide,
    (checkpoints_saved_iff 2 0 stepEx [10, 20, 30, 40] ⟨0, 0⟩ (by decide) 2
      (checkpointState (TrainState.mk 60 3))).mpr
      (by refine ⟨by decide, by decide, by decide, by decide, ?_⟩; rfl)⟩

/-- C4: fetching a batch when the iterator is exhausted is satisfied by a
fresh iterator over the loader (the `StopIteration` branch of lines
132-134); for a nonempty loader the inner loop therefore never fails,
from any iterator state; and the epoch's loop runs exactly
`len(train_dataloader)` iterations, consuming exactly the loader's
batches in order. -/
theorem epoch_runs_full_length {M O β : Type} (checkpoint gpu : Nat)
    (step : TrainState M O → β → TrainState M O) (loader : List β)
    (s : TrainState M O) (h : loader ≠ []) :
    (∀ (data : β) (rest : List β),
        fetchBatch (data :: rest) ([] : List β) = some (data, rest)) ∧
    (∀ it : List β,
        (trainLoopGo checkpoint gpu step loader (List.range loader.length) it
          s).isSome = true) ∧
    (∃ trace sf itf,
        train_epoch checkpoint gpu step loader s = some (trace, sf, itf) ∧
          trace.length = loader.length ∧
          trace.map (fun itr => itr.data) = loader) := by
  refine ⟨fun data rest => rfl,
    fun it => trainLoopGo_isSome checkpoint gpu step loader h _ it s, ?_⟩
  refine ⟨runSteps checkpoint gpu step (List.range loader.length) loader s,
    (loader.take (List.range loader.length).length).foldl step s,
    loader.drop (List.range loader.length).length, ?_, ?_, ?_⟩
  · exact trainLoopGo_eq_runSteps checkpoint gpu step loader _ _ _ (by simp)
  · have := runSteps_map_data checkpoint gpu step (List.range loader.length)
      loader s
    calc (runSteps checkpoint gpu step (List.range loader.length) loader
          s).length
        = ((runSteps checkpoint gpu step (List.range loader.length) loader
            s).map (fun itr => itr.data)).length := (List.length_map _ _).symm
      _ = loader.length := by rw [this]; simp
  · rw [runSteps_map_data]; simp

/-- C4 witness: on the concrete two-batch loader `[10, 20]`, the epoch
loop completes with a trace of length 2 consuming both batches, and the
restart branch returns the head of the fresh iterator. -/
theorem epoch_runs_full_length_witness :
    ([10, 20] : List Nat) ≠ [] ∧
    ((∀ (data : Nat) (rest : List Nat),
        fetchBatch (data :: rest) ([] : List Nat) = some (data, rest)) ∧
    (∀ it : List Nat,
        (trainLoopGo 2 0 stepEx [10, 20] (List.range ([10, 20] : List Nat).length)
          it ⟨0, 0⟩).isSome = true) ∧
    (∃ trace sf itf,
        train_epoch 2 0 stepEx [10, 20] ⟨0, 0⟩ = some (trace, sf, itf) ∧
          trace.length = ([10, 20] : List Nat).length ∧
          trace.map (fun itr => itr.data) = [10, 20])) :=
  ⟨by decide, epoch_runs_full_length 2 0 stepEx [10, 20] ⟨0, 0⟩ (by decide)⟩

/-- On batches whose image, timestamp and track-id rows are aligned, the
three concatenated collections gathered by the eval loop all have length
equal to the total number of samples. -/
theorem evalLoop_join_lengths {ι τ κ π : Type} (model : ι → π) :
    ∀ (batches : List (TestBatch ι τ κ)),
      (∀ data ∈ batches, data.image.length = data.timestamp.length ∧
          data.image.length = data.track_id.length) →
      (evalLoop model batches).1.flatten.length
          = (batches.map fun data => data.image.length).sum ∧
      (evalLoop model batches).2.1.flatten.length
          = (batches.map fun data => data.image.length).sum ∧
      (evalLoop model batches).2.2.flatten.length
          = (batches.map fun data => data.image.length).sum := by
  intro batches
  induction batches with
  | nil => intro _; simp [evalLoop]
  | cons data rest ih =>
    intro hb
    have hd := hb data (List.mem_cons_self _ _)
    obtain ⟨h1, h2, h3⟩ := ih fun x hx => hb x (List.mem_cons_of_mem _ hx)
    refine ⟨?_, ?_, ?_⟩ <;>
      simp [evalLoop, h1, h2, h3, ← hd.1, ← hd.2]

/-- C5: in evaluation mode the program collects, for each batch in
iteration order, the model outputs, timestamps and track ids, and after
concatenation the three collections have the same length, equal to the
total number of evaluated samples; the written CSV has exactly one row
per evaluated agent-timestamp pair. -/
theorem test_csv_one_row_per_sample {ι τ κ π : Type} (model : ι → π)
    (batches : List (TestBatch ι τ κ))
    (hbatch : ∀ data ∈ batches, data.image.length = data.timestamp.length ∧
        data.image.length = data.track_id.length) :
    ((evalLoop model batches).1.flatten.length
        = (batches.map fun data => data.image.length).sum ∧
      (evalLoop model batches).2.1.flatten.length
        = (batches.map fun data => data.image.length).sum ∧
      (evalLoop model batches).2.2.flatten.length
        = (batches.map fun data => data.image.length).sum) ∧
    (testRun model batches).length
      = (batches.map fun data => data.image.length).sum := by
  obtain ⟨h1, h2, h3⟩ := evalLoop_join_lengths model batches hbatch
  refine ⟨⟨h1, h2, h3⟩, ?_⟩
  unfold testRun write_pred_csv
  simp [h1, h2, h3]

/-- C5 witness: on two concrete aligned batches with three samples in
total, all three concatenated collections and the CSV have three rows. -/
theorem test_csv_one_row_per_sample_witness :
    (∀ data ∈ [TestBatch.mk [1, 2] [100, 200] [7, 8],
        TestBatch.mk [3] [300] [9]],
      data.image.length = data.timestamp.length ∧
        data.image.length = data.track_id.length) ∧
    (((evalLoop (fun x : Nat => x + 1)
          [TestBatch.mk [1, 2] [100, 200] [7, 8],
            TestBatch.mk [3] [300] [9]]).1.flatten.length
        = ([TestBatch.mk [1, 2] [100, 200] [7, 8],
            TestBatch.mk ([3] : List Nat) ([300] : List Nat)
              ([9] : List Nat)].map fun data => data.image.length).sum ∧
      (evalLoop (fun x : Nat => x + 1)
          [TestBatch.mk [1, 2] [100, 200] [7, 8],
            TestBatch.mk [3] [300] [9]]).2.1.flatten.length
        = ([TestBatch.mk [1, 2] [100, 200] [7, 8],
            TestBatch.mk ([3] : List Nat) ([300] : List Nat)
              ([9] : List Nat)].map fun data => data.image.length).sum ∧
      (evalLoop (fun x : Nat => x + 1)
          [TestBatch.mk [1, 2] [100, 200] [7, 8],
            TestBatch.mk [3] [300] [9]]).2.2.flatten.length
        = ([TestBatch.mk [1, 2] [100, 200] [7, 8],
            TestBatch.mk ([3] : List Nat) ([300] : List Nat)
              ([9] : List Nat)].map fun data => data.image.length).sum) ∧
    (testRun (fun x : Nat => x + 1)
        [TestBatch.mk [1, 2] [100, 200] [7, 8],
          TestBatch.mk [3] [300] [9]]).length
      = ([TestBatch.mk [1, 2] [100, 200] [7, 8],
          TestBatch.mk ([3] : List Nat) ([300] : List Nat)
            ([9] : List Nat)].map fun data => data.image.length).sum) :=
  ⟨by decide,
    test_csv_one_row_per_sample (fun x : Nat => x + 1)
      [TestBatch.mk [1, 2] [100, 200] [7, 8], TestBatch.mk [3] [300] [9]]
      (by decide)⟩

/-- C2: `build_model` replaces exactly the first convolution (input
channels `3 + 2 * (history_num_frames + 1)`; out-channels, kernel size,
stride and padding kept from the backbone's original `conv1`; bias
disabled) and the final linear layer (`2048 -> 2 * future_num_frames`);
every other layer of the backbone is left unchanged. -/
theorem build_model_replaces_exactly_two_layers (cfg_ : ModelParams) :
    (build_model cfg_).conv1.in_channels = 3 + 2 * (cfg_.history_num_frames + 1) ∧
    (build_model cfg_).conv1.out_channels = (resnet50 false).conv1.out_channels ∧
    (build_model cfg_).conv1.kernel_size = (resnet50 false).conv1.kernel_size ∧
    (build_model cfg_).conv1.stride = (resnet50 false).conv1.stride ∧
    (build_model cfg_).conv1.padding = (resnet50 false).conv1.padding ∧
    (build_model cfg_).conv1.bias = false ∧
    (build_model cfg_).fc = { in_features := 2048,
                              out_features := 2 * cfg_.future_num_frames } ∧
    (build_model cfg_).bn1_num_features = (resnet50 false).bn1_num_features ∧
    (build_model cfg_).maxpool_kernel_stride_padding
      = (resnet50 false).maxpool_kernel_stride_padding ∧
    (build_model cfg_).layer1_blocks = (resnet50 false).layer1_blocks ∧
    (build_model cfg_).layer2_blocks = (resnet50 false).layer2_blocks ∧
    (build_model cfg_).layer3_blocks = (resnet50 false).layer3_blocks ∧
    (build_model cfg_).layer4_blocks = (resnet50 false).layer4_blocks ∧
    (build_model cfg_).avgpool_output_size = (resnet50 false).avgpool_output_size := by
  refine ⟨?_, rfl, rfl, rfl, rfl, rfl, rfl, rfl, rfl, rfl, rfl, rfl, rfl, rfl⟩
  simp [build_model, resnet50]
  ring

/-- C8 counterexample: the backbone is NOT instantiated with pretrained
ImageNet weights — line 41 is `resnet50(pretrained=False)`, so for the
concrete config (history 10 frames, future 50 frames) the constructed
model's pretrained flag is `false`, refuting the claim that it is `true`. -/
theorem build_model_not_pretrained_counterexample :
    ¬ ((build_model { history_num_frames := 10, future_num_frames := 50 }).pretrained
        = true) := by
  decide

/-- C8 (amended): the backbone constructed by `build_model` is
instantiated WITHOUT pretrained weights (`pretrained=False`) before its
first convolution and final linear layer are replaced. -/
theorem build_model_backbone_pretrained_false (cfg_ : ModelParams) :
    (build_model cfg_).pretrained = false := rfl

/-- C6: `main` spawns the training routine iff
`cfg['train_params']['load_the_state']` is false, and spawns the
evaluation routine `test` iff that flag is true. -/
theorem mainSpawn_inverted (load_the_state : Bool) :
    (mainSpawn load_the_state = Mode.trainMode ↔ load_the_state = false) ∧
    (mainSpawn load_the_state = Mode.testMode ↔ load_the_state = true) := by
  cases load_the_state <;> simp [mainSpawn]

/-- C9 counterexample: the optimizer constructed in `train` (line 92) is
`optim.Adam`, not SGD. -/
theorem trainOptimizer_not_SGD_counterexample :
    ¬ (trainOptimizer.kind = OptimKind.SGD) := by
  decide

/-- C9 (amended): the optimizer constructed in `train` and used for every
parameter update is Adam with learning rate `1e-3`. -/
theorem trainOptimizer_is_adam :
    trainOptimizer.kind = OptimKind.Adam ∧ trainOptimizer.lr = 1 / 1000 :=
  ⟨rfl, rfl⟩

/-- C10 counterexample: the node-rank flag `-nr` does NOT contribute to
the world-size computation — with nodes=1, gpus=4 the computed world size
is 4 whether `nr` is 0 or 7 — and the `-g` flag is additionally used as
the `nprocs` argument of `mp.spawn`, so the flags are not used solely for
the world-size computation. -/
theorem world_size_ignores_nr_counterexample :
    world_size { nodes := 1, gpus := 4, nr := 0 }
      = world_size { nodes := 1, gpus := 4, nr := 7 } ∧
    world_size { nodes := 1, gpus := 4, nr := 0 } = 4 ∧
    spawn_nprocs { nodes := 1, gpus := 4, nr := 0 } = 4 := by
  decide

/-- C10 (amended): `world_size` is computed as `gpus * nodes` from the
`-n` and `-g` flags only (it is invariant in the node rank `-nr`, which
is parsed but never used), and `-g` is additionally used as the number of
processes spawned per node. -/
theorem world_size_computation (args : Args) :
    world_size args = args.gpus * args.nodes ∧
    spawn_nprocs args = args.gpus ∧
    (∀ x : Nat, world_size { nodes := args.nodes, gpus := args.gpus, nr := x }
      = world_size args) :=
  ⟨rfl, rfl, fun _ => rfl⟩

/-- C1: `forward` computes the masked MSE loss: the elementwise squared
error between the reshaped model outputs and the target positions is
multiplied elementwise by the availability mask (broadcast over the
trailing coordinate dimension) and reduced by the mean over all
`B * T * 2` elements; equivalently, the sum ranges only over steps with
nonzero availability, so steps with availability `0` contribute zero to
the sum of the loss. -/
theorem forward_masked_mse_loss {ι : Type} {B T : Nat} (data_ : BatchData ι B T)
    (model_ : ι → Fin B → Fin (2 * T) → ℚ) :
    (forward data_ model_).1
      = (∑ b : Fin B, ∑ s : Fin T, ∑ i : Fin 2,
          (reshapeOut (model_ data_.image) b s i - data_.target_positions b s i) ^ 2
            * data_.target_availabilities b s) / (B * T * 2) ∧
    (forward data_ model_).1
      = (∑ b : Fin B, ∑ s : Fin T,
          if data_.target_availabilities b s = 0 then 0
          else data_.target_availabilities b s
            * ∑ i : Fin 2,
                (reshapeOut (model_ data_.image) b s i
                  - data_.target_positions b s i) ^ 2) / (B * T * 2) := by
  constructor
  · rfl
  · show tensorMean _ = _
    unfold tensorMean mulAvailabilities mseLossNone
    congr 1
    refine Finset.sum_congr rfl fun b _ => Finset.sum_congr rfl fun s _ => ?_
    by_cases h : data_.target_availabilities b s = 0
    · simp [h]
    · rw [if_neg h, Finset.mul_sum]
      exact Finset.sum_congr rfl fun i _ => mul_comm _ _

/-- C7: the `(B, 2 * future_num_frames)`-shaped output of the model built
by `build_model` has exactly as many elements as the
`(B, future_num_frames, 2)`-shaped target positions, and the row-major
index map used by the reshape is a bijection, so the reshape on line 66
is valid and `forward` returns outputs of exactly the targets' shape. -/
theorem forward_reshape_valid (cfg_ : ModelParams) (B : Nat) :
    B * (build_model cfg_).fc.out_features = B * cfg_.future_num_frames * 2 ∧
    Function.Bijective (flatIdx cfg_.future_num_frames) := by
  constructor
  · show B * (2 * cfg_.future_num_frames) = _
    ring
  · constructor
    · rintro ⟨⟨s, hs⟩, ⟨i, hi⟩⟩ ⟨⟨s', hs'⟩, ⟨i', hi'⟩⟩ h
      simp only [flatIdx, Fin.mk.injEq] at h
      simp only [Prod.mk.injEq, Fin.mk.injEq]
      omega
    · rintro ⟨j, hj⟩
      refine ⟨(⟨j / 2, by omega⟩, ⟨j % 2, by omega⟩), ?_⟩
      simp only [flatIdx, Fin.mk.injEq]
      omega

end AgentMotion
